import Mathlib

/-!
Shallow embedding of the smart-home hub (devices.py, registry.py,
smart_home_server.py): the device data model, the room-keyed registry,
room-name normalization, the command tools, state persistence, and the
television remote-channel operations.  The remote command channel (ADB
subprocess calls) is external; each channel call's success is supplied as an
oracle boolean in an `Env` record, and file writes likewise succeed or fail
according to `Env` flags.
-/

namespace SmartHome

/-- A value stored in a device's `state` dictionary (a Python dict value:
strings, ints, or booleans occur in this code base). -/
inductive Value where
  | str (s : String)
  | int (n : Int)
  | bool (b : Bool)
deriving DecidableEq, Repr

/-- Python `str(value)`, as used when a value is interpolated into a message. -/
def Value.render : Value → String
  | .str s => s
  | .int n => toString n
  | .bool b => if b then "True" else "False"

/-- A device's `state` dict: an insertion-ordered association list from
capability key to value (Python dict semantics, keys unique). -/
abbrev StateBag := List (String × Value)

/-- Python `state[k] = v`: update the existing key in place, else append. -/
def setKey : StateBag → String → Value → StateBag
  | [], k, v => [(k, v)]
  | p :: rest, k, v => if p.1 = k then (k, v) :: rest else p :: setKey rest k v

/-- Python `state.get(k)` / `state[k]` lookup. -/
def getKey : StateBag → String → Option Value
  | [], _ => none
  | p :: rest, k => if p.1 = k then some p.2 else getKey rest k

/-- The device classes of devices.py: Device subclasses Light, Fan, AC,
Chimney, and the standalone TV class. -/
inductive DeviceKind where
  | light
  | fan
  | ac
  | chimney
  | tv
deriving DecidableEq, Repr

/-- The `type` string each class stores / reports in `to_dict`. -/
def typeName : DeviceKind → String
  | .light => "light"
  | .fan => "fan"
  | .ac => "ac"
  | .chimney => "chimney"
  | .tv => "tv"

/-- A television's connection endpoint (`ip_address`, `port` attributes of
the TV class). -/
structure TVConn where
  ip_address : String
  port : Int
deriving DecidableEq, Repr

/-- One device object: name, class (kind), room, `state` dict, and for
televisions the connection endpoint attributes. -/
structure Device where
  name : String
  kind : DeviceKind
  room : String
  state : StateBag
  conn : Option TVConn
deriving DecidableEq, Repr

/-- `Light.__init__`: base state `{"power": "OFF"}` plus `brightness = 0`. -/
def Light.make (name room : String) : Device :=
  { name := name, kind := .light, room := room,
    state := [("power", .str "OFF"), ("brightness", .int 0)], conn := none }

/-- `Fan.__init__`: base state plus `speed = 0`. -/
def Fan.make (name room : String) : Device :=
  { name := name, kind := .fan, room := room,
    state := [("power", .str "OFF"), ("speed", .int 0)], conn := none }

/-- `AC.__init__`: base state plus `temperature = 24`. -/
def AC.make (name room : String) : Device :=
  { name := name, kind := .ac, room := room,
    state := [("power", .str "OFF"), ("temperature", .int 24)], conn := none }

/-- `Chimney.__init__`: base state plus `mode = "OFF"`. -/
def Chimney.make (name room : String) : Device :=
  { name := name, kind := .chimney, room := room,
    state := [("power", .str "OFF"), ("mode", .str "OFF")], conn := none }

/-- `TV.__init__`: state `{"power": "off", "volume": 50, "muted": False,
"current_app": "home"}` plus the connection endpoint.  The constructor's
`_initialize_connection` ADB call has no effect on the Python-level state. -/
def TV.make (name room ip : String) (port : Int) : Device :=
  { name := name, kind := .tv, room := room,
    state := [("power", .str "off"), ("volume", .int 50),
              ("muted", .bool false), ("current_app", .str "home")],
    conn := some { ip_address := ip, port := port } }

/-- The record written per device by `to_dict` (simple devices write
name/type/room/state; the TV additionally writes ip_address and port). -/
structure DevRecord where
  name : String
  type : String
  room : String
  state : StateBag
  ip_address : Option String
  port : Option Int
deriving DecidableEq, Repr

/-- `Device.to_dict` / `TV.to_dict`. -/
def Device.to_dict (d : Device) : DevRecord :=
  { name := d.name, type := typeName d.kind, room := d.room, state := d.state,
    ip_address := d.conn.map (fun c => c.ip_address),
    port := d.conn.map (fun c => c.port) }

/-- One room's bucket: `device_name → Device` (a Python dict). -/
abbrev RoomMap := List (String × Device)

/-- The two-level `DEVICES` mapping: `room → device_name → Device`. -/
abbrev Registry := List (String × RoomMap)

/-- `name in DEVICES[room]` followed by `DEVICES[room][name]`. -/
def lookupDev : RoomMap → String → Option Device
  | [], _ => none
  | p :: rest, name => if p.1 = name then some p.2 else lookupDev rest name

/-- `DEVICES[room][name] = d` on a bucket (dict update: replace in place,
else append; keys are unique in a Python dict). -/
def RoomMap.set : RoomMap → String → Device → RoomMap
  | [], name, d => [(name, d)]
  | p :: rest, name, d =>
      if p.1 = name then (name, d) :: rest else p :: RoomMap.set rest name d

/-- `room in DEVICES`. -/
def Registry.hasRoom : Registry → String → Bool
  | [], _ => false
  | p :: rest, room => p.1 = room || Registry.hasRoom rest room

/-- `room in DEVICES and name in DEVICES[room]`, then `DEVICES[room][name]`. -/
def Registry.find : Registry → String → String → Option Device
  | [], _, _ => none
  | p :: rest, room, name =>
      if p.1 = room then lookupDev p.2 name else Registry.find rest room name

/-- `DEVICES[room][name] = d` at the registry level (the commands only do
this after the room bucket exists; the `[]` fallback appends a fresh room,
matching `DEVICES[room] = {}` followed by the item assignment). -/
def Registry.set : Registry → String → String → Device → Registry
  | [], room, name, d => [(room, [(name, d)])]
  | p :: rest, room, name, d =>
      if p.1 = room then (room, RoomMap.set p.2 name d) :: rest
      else p :: Registry.set rest room name d

/-- `if normalized_room not in DEVICES: DEVICES[normalized_room] = {}`. -/
def Registry.ensureRoom (reg : Registry) (room : String) : Registry :=
  if Registry.hasRoom reg room then reg else reg ++ [(room, [])]

/-- The static `DEVICES` seed of registry.py. -/
def DEVICES : Registry :=
  [ ("kitchen",
      [("light1", Light.make "light1" "kitchen"),
       ("light2", Light.make "light2" "kitchen"),
       ("chimney", Chimney.make "chimney" "kitchen")]),
    ("livingroom",
      [("light3", Light.make "light3" "livingroom"),
       ("light4", Light.make "light4" "livingroom"),
       ("light5", Light.make "light5" "livingroom"),
       ("fan1", Fan.make "fan1" "livingroom")]),
    ("bedroom",
      [("ac1", AC.make "ac1" "bedroom"),
       ("fan2", Fan.make "fan2" "bedroom"),
       ("light76", Light.make "light76" "bedroom")]) ]

/-- The `ROOM_ALIASES` table of smart_home_server.py. -/
def ROOM_ALIASES : List (String × String) :=
  [ ("living room", "livingroom"),
    ("living_room", "livingroom"),
    ("lounge", "livingroom"),
    ("hall", "livingroom"),
    ("bed room", "bedroom"),
    ("bed_room", "bedroom"),
    ("master bedroom", "bedroom"),
    ("kitchen", "kitchen"),
    ("cook room", "kitchen") ]

/-- Python `str.lower()` (the room names here are ASCII). -/
def strLower (s : String) : String := ⟨s.data.map Char.toLower⟩

/-- Python `str.strip()`: drop leading and trailing whitespace. -/
def strStrip (s : String) : String :=
  ⟨((s.data.dropWhile Char.isWhitespace).reverse.dropWhile Char.isWhitespace).reverse⟩

/-- `normalize_room_name`: lower-case, strip, then consult the alias table;
unknown input passes through unchanged. -/
def normalize_room_name (room : String) : String :=
  let room_lower := strStrip (strLower room)
  match ROOM_ALIASES.find? (fun p => p.1 = room_lower) with
  | some p => p.2
  | none => room_lower

/-! ## External world: remote channel and file writes -/

/-- Outcomes of the external effects a command may perform:
`channelOk` is the success of a `_send_adb_command` remote-channel call,
`devicesWriteOk` whether the devices.json dump in `save_state` succeeds,
`tvConfigWriteOk` whether the tv_config.json dump in `save_tv_config`
succeeds, and `errText` the `str(e)` rendering of a raised exception. -/
structure Env where
  channelOk : Bool
  devicesWriteOk : Bool
  tvConfigWriteOk : Bool
  errText : String
deriving DecidableEq, Repr

/-- What a tool invocation produces: either a returned string, or an
uncaught exception escaping the tool function. -/
inductive CmdResult where
  | ok (msg : String)
  | exn
deriving DecidableEq, Repr

/-- A command's total effect: the registry afterwards, whether `save_state`
was invoked, and the result handed back. -/
structure CmdEffect where
  registry : Registry
  saved : Bool
  result : CmdResult
deriving DecidableEq, Repr

/-- `save_state`: the devices.json `open`/`json.dump` is NOT wrapped in
try/except, so a failed write raises out of `save_state`; the subsequent
`save_tv_config` catches its own write failure (printing a warning), so the
tv_config write never raises.  Returns whether `save_state` returned
normally. -/
def save_state_ok (env : Env) : Bool := env.devicesWriteOk

/-- The devices.json content `save_state` writes:
`room → name → dev.to_dict()`. -/
def devices_json (reg : Registry) : List (String × List (String × DevRecord)) :=
  reg.map (fun p => (p.1, p.2.map (fun q => (q.1, q.2.to_dict))))

/-- The tv_config.json content: per room, per device name, the endpoint of
every device that has an `ip_address` attribute (the TVs); rooms without a
TV get no entry (the room key is only created when a TV is met). -/
def save_tv_config (reg : Registry) : List (String × List (String × TVConn)) :=
  (reg.map (fun p => (p.1, p.2.filterMap (fun q => q.2.conn.map (fun c => (q.1, c)))))).filter
    (fun p => !p.2.isEmpty)

/-! ## Television remote-channel operations (TV class) -/

/-- `TV.turn_on`: send the power keyevent; only on channel success set
`state["power"] = "on"`; return the channel's success. -/
def TV.turn_on (d : Device) (ok : Bool) : Device × Bool :=
  if ok then ({ d with state := setKey d.state "power" (.str "on") }, true)
  else (d, false)

/-- `TV.turn_off`: as `TV.turn_on` with `state["power"] = "off"`. -/
def TV.turn_off (d : Device) (ok : Bool) : Device × Bool :=
  if ok then ({ d with state := setKey d.state "power" (.str "off") }, true)
  else (d, false)

/-- `self.state["volume"]` read as an int (the TV constructor and the volume
mutators keep it an int; the wildcard default stands for the KeyError Python
would raise on a state bag no TV ever has). -/
def volumeOf (d : Device) : Int :=
  match getKey d.state "volume" with
  | some (.int n) => n
  | _ => 0

/-- `TV.volume_up`: on channel success `volume = min(100, volume + 5)`;
on failure the state is untouched; return the channel's success. -/
def TV.volume_up (d : Device) (ok : Bool) : Device × Bool :=
  if ok then
    ({ d with state := setKey d.state "volume" (.int (min 100 (volumeOf d + 5))) }, true)
  else (d, false)

/-- `TV.volume_down`: on channel success `volume = max(0, volume - 5)`. -/
def TV.volume_down (d : Device) (ok : Bool) : Device × Bool :=
  if ok then
    ({ d with state := setKey d.state "volume" (.int (max 0 (volumeOf d - 5))) }, true)
  else (d, false)

/-- Python `\w` over the ASCII range (the class `[^\w%s]` of `TV.send_text`
is applied with re's default Unicode semantics; the inputs of interest are
ASCII). -/
def isWordChar (c : Char) : Bool := c.isAlphanum || c = '_'

/-- The `cleaned_text` computation of `TV.send_text`, i.e. the payload
handed to the channel's `input text` primitive:
`text.replace(" ", "%s")` then `re.sub(r'[^\w%s]', '', ·)` — inside the
character class, `%` and `s` are literal characters, so the kept characters
are word characters plus `%` and `s`. -/
def send_text_clean (text : String) : String :=
  let replaced := text.data.flatMap (fun c => if c = ' ' then ['%', 's'] else [c])
  ⟨replaced.filter (fun c => isWordChar c || c = '%' || c = 's')⟩

/-- Polymorphic `dev.turn_on()`: the simple Device classes unconditionally
set `state["power"] = "ON"` (returning None, modelled as success `true`);
the TV consults the remote channel. -/
def Device.turn_on (d : Device) (ok : Bool) : Device × Bool :=
  match d.kind with
  | .tv => TV.turn_on d ok
  | _ => ({ d with state := setKey d.state "power" (.str "ON") }, true)

/-- Polymorphic `dev.turn_off()`. -/
def Device.turn_off (d : Device) (ok : Bool) : Device × Bool :=
  match d.kind with
  | .tv => TV.turn_off d ok
  | _ => ({ d with state := setKey d.state "power" (.str "OFF") }, true)

/-- `hasattr(dev, "set_" + key)`: the only `set_*` methods in devices.py are
`Light.set_brightness`, `Fan.set_speed`, `AC.set_temperature` and
`Chimney.set_mode`; the TV class has none.  Each of those setters does
exactly `state[key] = value`. -/
def supportsSet (k : DeviceKind) (key : String) : Bool :=
  match k with
  | .light => key = "brightness"
  | .fan => key = "speed"
  | .ac => key = "temperature"
  | .chimney => key = "mode"
  | .tv => false

/-! ## Command tools (smart_home_server.py) -/

/-- `turn_on_device`: note the source checks `room in DEVICES` on the RAW
room string (no `normalize_room_name` call), and discards the value returned
by `dev.turn_on()`.  The MQTT publish is fire-and-forget and does not affect
the outcome. -/
def turn_on_device (reg : Registry) (env : Env) (room device_name : String) :
    CmdEffect :=
  match Registry.find reg room device_name with
  | some dev =>
      let reg2 := Registry.set reg room device_name (Device.turn_on dev env.channelOk).1
      { registry := reg2, saved := true,
        result :=
          if save_state_ok env then
            .ok (device_name ++ " in " ++ room ++ " is now ON.")
          else .exn }
  | none =>
      { registry := reg, saved := false,
        result := .ok ("Device " ++ device_name ++ " not found in " ++ room ++ ".") }

/-- `turn_off_device`: same shape as `turn_on_device` (raw room, mutator
result discarded). -/
def turn_off_device (reg : Registry) (env : Env) (room device_name : String) :
    CmdEffect :=
  match Registry.find reg room device_name with
  | some dev =>
      let reg2 := Registry.set reg room device_name (Device.turn_off dev env.channelOk).1
      { registry := reg2, saved := true,
        result :=
          if save_state_ok env then
            .ok (device_name ++ " in " ++ room ++ " is now OFF.")
          else .exn }
  | none =>
      { registry := reg, saved := false,
        result := .ok ("Device " ++ device_name ++ " not found in " ++ room ++ ".") }

/-- `set_device_value`: normalizes the room, probes `hasattr(dev, "set_"+key)`
and applies the setter (each setter is `state[key] = value`). -/
def set_device_value (reg : Registry) (env : Env) (room device_name key : String)
    (value : Value) : CmdEffect :=
  let normalized_room := normalize_room_name room
  match Registry.find reg normalized_room device_name with
  | some dev =>
      if supportsSet dev.kind key then
        let reg2 := Registry.set reg normalized_room device_name
          { dev with state := setKey dev.state key value }
        { registry := reg2, saved := true,
          result :=
            if save_state_ok env then
              .ok (key ++ " for " ++ device_name ++ " in " ++ room ++ " set to "
                   ++ value.render ++ ".")
            else .exn }
      else
        { registry := reg, saved := false,
          result := .ok ("Device " ++ device_name ++ " does not support " ++ key ++ ".") }
  | none =>
      { registry := reg, saved := false,
        result := .ok ("Device " ++ device_name ++ " not found in " ++ room ++ ".") }

/-- `tv_volume_up`: normalizes the room; `hasattr(dev, "volume_up")` holds
exactly for the TV class; `save_state` runs only when the channel call
succeeded, and the success message prints the post-update volume. -/
def tv_volume_up (reg : Registry) (env : Env) (room device_name : String) :
    CmdEffect :=
  let normalized_room := normalize_room_name room
  match Registry.find reg normalized_room device_name with
  | some dev =>
      if dev.kind = .tv then
        let r := TV.volume_up dev env.channelOk
        let reg2 := Registry.set reg normalized_room device_name r.1
        if r.2 then
          { registry := reg2, saved := true,
            result :=
              if save_state_ok env then
                .ok ("🔊 TV volume increased. Current volume: " ++ toString (volumeOf r.1))
              else .exn }
        else
          { registry := reg2, saved := false,
            result := .ok "❌ Failed to increase TV volume. Connection issue." }
      else
        { registry := reg, saved := false,
          result := .ok ("Device " ++ device_name ++ " is not a TV.") }
  | none =>
      { registry := reg, saved := false,
        result := .ok ("Device " ++ device_name ++ " not found in " ++ room ++ ".") }

/-- `tv_volume_down`: mirror image of `tv_volume_up`. -/
def tv_volume_down (reg : Registry) (env : Env) (room device_name : String) :
    CmdEffect :=
  let normalized_room := normalize_room_name room
  match Registry.find reg normalized_room device_name with
  | some dev =>
      if dev.kind = .tv then
        let r := TV.volume_down dev env.channelOk
        let reg2 := Registry.set reg normalized_room device_name r.1
        if r.2 then
          { registry := reg2, saved := true,
            result :=
              if save_state_ok env then
                .ok ("🔉 TV volume decreased. Current volume: " ++ toString (volumeOf r.1))
              else .exn }
        else
          { registry := reg2, saved := false,
            result := .ok "❌ Failed to decrease TV volume. Connection issue." }
      else
        { registry := reg, saved := false,
          result := .ok ("Device " ++ device_name ++ " is not a TV.") }
  | none =>
      { registry := reg, saved := false,
        result := .ok ("Device " ++ device_name ++ " not found in " ++ room ++ ".") }

/-! ## IP / port validation and TV configuration tools -/

/-- One octet of the `add_tv_device` regex, i.e. a full match of the
alternation `25[0-5] | 2[0-4][0-9] | [01]?[0-9][0-9]?`. -/
def ipOctet : List Char → Bool
  | [c] => c.isDigit
  | [c1, c2] => c1.isDigit && c2.isDigit
  | [c1, c2, c3] =>
      (c1 = '2' && c2 = '5' && '0' ≤ c3 && c3 ≤ '5') ||
      (c1 = '2' && '0' ≤ c2 && c2 ≤ '4' && c3.isDigit) ||
      ((c1 = '0' || c1 = '1') && c2.isDigit && c3.isDigit)
  | _ => false

/-- Split a character list on the literal `.` separator (the dot-separated
fields of a candidate IP string). -/
def splitOnDot : List Char → List (List Char)
  | [] => [[]]
  | c :: rest =>
      if c = '.' then [] :: splitOnDot rest
      else
        match splitOnDot rest with
        | f :: fs => (c :: f) :: fs
        | [] => [[c]]

/-- A strict full match of `(?:octet\.){3}octet` against a character list:
since an octet consists of digits only and the separators are literal dots,
it succeeds exactly when the dot-separated fields number four and each is a
full octet match. -/
def ipMatchCore (cs : List Char) : Bool :=
  let fields := splitOnDot cs
  fields.length = 4 && fields.all ipOctet

/-- `re.match` of the anchored pattern `^(?:octet\.){3}octet$` from
`add_tv_device` / `update_tv_config`, with Python `re` semantics for the
anchors: `re.match` pins the start, and without `re.MULTILINE` the `$`
matches at the end of the string OR just before a single newline that ends
the string.  So the regex accepts the dotted quad itself and also the
dotted quad followed by one trailing newline. -/
def ipMatch (s : String) : Bool :=
  ipMatchCore s.data ||
    (s.data.getLast? = some '\n' && ipMatchCore s.data.dropLast)

/-- The numeric value of a digit field (each `c` being a decimal digit). -/
def digitsVal (cs : List Char) : Nat :=
  cs.foldl (fun a c => a * 10 + (c.toNat - 48)) 0

/-- Modelled from the spec: one octet of "dotted-quad IPv4 syntax with
octets 0-255" — one to three decimal digits with numeric value at most 255.
Used only to compare the source regex's language against the spec's
words. -/
def specOctet (f : List Char) : Bool :=
  1 ≤ f.length && f.length ≤ 3 && f.all Char.isDigit && digitsVal f ≤ 255

/-- Modelled from the spec: "dotted-quad IPv4 syntax with octets 0-255" on
a character list — four dot-separated octet fields. -/
def specDottedQuadData (cs : List Char) : Bool :=
  let fields := splitOnDot cs
  fields.length = 4 && fields.all specOctet

/-- Modelled from the spec: "dotted-quad IPv4 syntax with octets 0-255". -/
def specDottedQuad (s : String) : Bool :=
  specDottedQuadData s.data

/-- `add_tv_device`: validate the IP against the regex, then the port range;
only then create the room bucket if missing, refuse an existing device name,
and otherwise insert a fresh TV and `save_state` (inside try/except: a write
failure is caught and reported, with the device left inserted). -/
def add_tv_device (reg : Registry) (env : Env) (room device_name ip_address : String)
    (port : Int) : CmdEffect :=
  let normalized_room := normalize_room_name room
  if ipMatch ip_address = false then
    { registry := reg, saved := false,
      result := .ok ("❌ Invalid IP address format: " ++ ip_address) }
  else if ¬(1 ≤ port ∧ port ≤ 65535) then
    { registry := reg, saved := false,
      result := .ok ("❌ Invalid port number: " ++ toString port
                     ++ ". Must be between 1-65535") }
  else
    let reg1 := Registry.ensureRoom reg normalized_room
    if (Registry.find reg1 normalized_room device_name).isSome then
      { registry := reg1, saved := false,
        result := .ok ("❌ Device " ++ device_name ++ " already exists in " ++ room
                       ++ ". Use update_tv_config to modify it.") }
    else
      let reg2 := Registry.set reg1 normalized_room device_name
        (TV.make device_name normalized_room ip_address port)
      { registry := reg2, saved := true,
        result :=
          if save_state_ok env then
            .ok ("✅ TV \x27" ++ device_name ++ "\x27 added to " ++ room ++ " with IP "
                 ++ ip_address ++ ":" ++ toString port ++ ". Status: "
                 ++ (if env.channelOk then "✅ Connected" else "❌ Not connected"))
          else .ok ("❌ Failed to add TV device: " ++ env.errText) }

/-- Models `initialize_tv_configs` (the startup reload): for each room and
device of the tv_config file, normalize the room, create its bucket if
missing, and ONLY IF the device name is not already live, construct a fresh
`TV` from the saved endpoint — with the constructor's default state. -/
def startup_tv_configs (reg : Registry)
    (configs : List (String × List (String × TVConn))) : Registry :=
  configs.foldl
    (fun acc roomCfg =>
      let normalized_room := normalize_room_name roomCfg.1
      let acc1 := Registry.ensureRoom acc normalized_room
      roomCfg.2.foldl
        (fun acc2 nc =>
          if (Registry.find acc2 normalized_room nc.1).isSome then acc2
          else Registry.set acc2 normalized_room nc.1
            (TV.make nc.1 normalized_room nc.2.ip_address nc.2.port))
        acc1)
    reg

/-- A volume operation together with its channel outcome. -/
inductive VolOp where
  | up
  | down
deriving DecidableEq, Repr

/-- Apply a sequence of `volume_up` / `volume_down` calls, each with its own
remote-channel outcome. -/
def applyVolOps : Device → List (VolOp × Bool) → Device
  | d, [] => d
  | d, (op, ok) :: rest =>
      applyVolOps
        (match op with
         | .up => (TV.volume_up d ok).1
         | .down => (TV.volume_down d ok).1)
        rest

/-- Lookup in one room of the written devices.json content. -/
def lookupRec : List (String × DevRecord) → String → Option DevRecord
  | [], _ => none
  | p :: rest, name => if p.1 = name then some p.2 else lookupRec rest name

/-- Lookup of a device's record in the written devices.json content. -/
def findRecord : List (String × List (String × DevRecord)) → String → String → Option DevRecord
  | [], _, _ => none
  | p :: rest, room, name =>
      if p.1 = room then lookupRec p.2 name else findRecord rest room name

/-- A one-TV registry used to exercise the television paths. -/
def regTV : Registry :=
  [("livingroom", [("tv", TV.make "tv" "livingroom" "192.168.1.14" 5555)])]

/-- A one-TV registry as left by a successful volume mutation: the TV's
`volume` has been overwritten with `vol`. -/
def regTVvol (ip : String) (port vol : Int) : Registry :=
  [("livingroom", [("tv",
      { TV.make "tv" "livingroom" ip port with
          state := setKey (TV.make "tv" "livingroom" ip port).state "volume" (.int vol) })])]

example : normalize_room_name "Living Room " = "livingroom" := by decide
example : normalize_room_name "lounge" = "livingroom" := by decide
example : normalize_room_name "garage" = "garage" := by decide
example : ipMatch "192.168.1.14" = true := by decide
example : ipMatch "999.1.1.1" = false := by decide
example : ipMatch "1.2.3" = false := by decide
example : ipMatch "1.2.3.4.5" = false := by decide
example : ipMatch "256.1.1.1" = false := by decide
example : ipMatch "192.168.1.14\n" = true := by decide
example : ipMatch "999.1.1.1\n" = false := by decide
example : ipMatch "192.168.1.14\n\n" = false := by decide
example : specDottedQuad "192.168.1.14" = true := by decide
example : specDottedQuad "192.168.1.14\n" = false := by decide
example : send_text_clean "hi there!" = "hi%sthere" := by decide

/-! ## Association-list lemmas -/

theorem getKey_setKey_self (st : StateBag) (k : String) (v : Value) :
    getKey (setKey st k v) k = some v := by
  induction st with
  | nil => simp [setKey, getKey]
  | cons p rest ih =>
      by_cases h : p.1 = k <;> simp [setKey, getKey, h, ih]

theorem getKey_setKey_other (st : StateBag) (k k' : String) (v : Value)
    (h : k ≠ k') : getKey (setKey st k v) k' = getKey st k' := by
  induction st with
  | nil => simp [setKey, getKey, h]
  | cons p rest ih =>
      by_cases hp : p.1 = k
      · simp [setKey, getKey, hp, h]
      · by_cases hp' : p.1 = k' <;> simp [setKey, getKey, hp, hp', Ne.symm h, ih]

theorem lookupDev_set_self (devs : RoomMap) (name : String) (d : Device) :
    lookupDev (RoomMap.set devs name d) name = some d := by
  induction devs with
  | nil => simp [RoomMap.set, lookupDev]
  | cons p rest ih =>
      by_cases h : p.1 = name <;> simp [RoomMap.set, lookupDev, h, ih]

theorem find_set_self (reg : Registry) (room name : String) (d : Device) :
    Registry.find (Registry.set reg room name d) room name = some d := by
  induction reg with
  | nil => simp [Registry.set, Registry.find, lookupDev]
  | cons p rest ih =>
      by_cases h : p.1 = room <;>
        simp [Registry.set, Registry.find, h, ih, lookupDev_set_self]

theorem roomMap_set_self_eq (devs : RoomMap) (name : String) (d : Device)
    (h : lookupDev devs name = some d) : RoomMap.set devs name d = devs := by
  induction devs with
  | nil => simp [lookupDev] at h
  | cons p rest ih =>
      obtain ⟨pn, pd⟩ := p
      by_cases hp : pn = name
      · simp [lookupDev, hp] at h
        simp [RoomMap.set, hp, h]
      · simp [lookupDev, hp] at h
        simp [RoomMap.set, hp, ih h]

theorem registry_set_self_eq (reg : Registry) (room name : String) (d : Device)
    (h : Registry.find reg room name = some d) :
    Registry.set reg room name d = reg := by
  induction reg with
  | nil => simp [Registry.find] at h
  | cons p rest ih =>
      obtain ⟨pr, pdevs⟩ := p
      by_cases hp : pr = room
      · simp [Registry.find, hp] at h
        simp [Registry.set, hp, roomMap_set_self_eq pdevs name d h]
      · simp [Registry.find, hp] at h
        simp [Registry.set, hp, ih h]

theorem hasRoom_of_find (reg : Registry) (room name : String) (d : Device)
    (h : Registry.find reg room name = some d) :
    Registry.hasRoom reg room = true := by
  induction reg with
  | nil => simp [Registry.find] at h
  | cons p rest ih =>
      by_cases hp : p.1 = room
      · simp [Registry.hasRoom, hp]
      · simp [Registry.find, hp] at h
        simp [Registry.hasRoom, hp, ih h]

theorem find_none_of_not_hasRoom (reg : Registry) (room name : String)
    (h : Registry.hasRoom reg room = false) :
    Registry.find reg room name = none := by
  induction reg with
  | nil => simp [Registry.find]
  | cons p rest ih =>
      simp [Registry.hasRoom] at h
      simp [Registry.find, h.1, ih h.2]

theorem ensureRoom_of_hasRoom (reg : Registry) (room : String)
    (h : Registry.hasRoom reg room = true) :
    Registry.ensureRoom reg room = reg := by
  simp [Registry.ensureRoom, h]

theorem volumeOf_setVolume (d : Device) (n : Int) :
    volumeOf { d with state := setKey d.state "volume" (.int n) } = n := by
  simp [volumeOf, getKey_setKey_self]

theorem volumeOf_mk (name : String) (kind : DeviceKind) (room : String)
    (st : StateBag) (conn : Option TVConn) (n : Int) :
    volumeOf ⟨name, kind, room, setKey st "volume" (.int n), conn⟩ = n := by
  simp [volumeOf, getKey_setKey_self]

theorem volume_bounds (ops : List (VolOp × Bool)) :
    ∀ d : Device, 0 ≤ volumeOf d → volumeOf d ≤ 100 →
      0 ≤ volumeOf (applyVolOps d ops) ∧ volumeOf (applyVolOps d ops) ≤ 100 := by
  induction ops with
  | nil => intro d h0 h1; exact ⟨h0, h1⟩
  | cons p rest ih =>
      intro d h0 h1
      obtain ⟨op, ok⟩ := p
      cases op <;> cases ok <;>
        simp only [applyVolOps, TV.volume_up, TV.volume_down, if_true, if_false,
          Bool.false_eq_true, ite_false, ite_true]
      · exact ih d h0 h1
      · refine ih _ ?_ ?_ <;> rw [volumeOf_setVolume] <;> omega
      · exact ih d h0 h1
      · refine ih _ ?_ ?_ <;> rw [volumeOf_setVolume] <;> omega

/-! ## The regex language versus the spec's dotted-quad wording -/

theorem char_le_iff {a b : Char} : a ≤ b ↔ a.toNat ≤ b.toNat := by
  rw [Char.le_def, UInt32.le_def, BitVec.le_def]
  exact Iff.rfl

theorem char_isDigit_iff {c : Char} : c.isDigit = true ↔ 48 ≤ c.toNat ∧ c.toNat ≤ 57 := by
  rw [show c.isDigit = (('0' ≤ c : Bool) && (c ≤ '9' : Bool)) from rfl]
  simp [char_le_iff]

theorem char_eq_of_toNat {a : Char} {n : Nat} (hn : a.toNat = n) :
    a = Char.ofNat n := by
  rw [← hn, Char.ofNat_toNat]

/-- A full match of the octet alternation is exactly a one-to-three digit
field of value at most 255. -/
theorem ipOctet_iff (f : List Char) :
    ipOctet f = true ↔
      (1 ≤ f.length ∧ f.length ≤ 3 ∧ (∀ c ∈ f, c.isDigit = true)
        ∧ digitsVal f ≤ 255) := by
  have e0 : ('0' : Char).toNat = 48 := rfl
  have e1 : ('1' : Char).toNat = 49 := rfl
  have e2 : ('2' : Char).toNat = 50 := rfl
  have e4 : ('4' : Char).toNat = 52 := rfl
  have e5 : ('5' : Char).toNat = 53 := rfl
  match f with
  | [] => simp [ipOctet]
  | [a] =>
      simp only [ipOctet, digitsVal, List.foldl, List.mem_singleton, List.length_singleton]
      constructor
      · intro h
        have hb := char_isDigit_iff.mp h
        exact ⟨by omega, by omega, fun c hc => hc ▸ h, by omega⟩
      · intro ⟨_, _, h, _⟩
        exact h a rfl
  | [a, b] =>
      simp only [ipOctet, digitsVal, List.foldl, Bool.and_eq_true, List.length_cons,
        List.length_nil, List.mem_cons, List.not_mem_nil]
      constructor
      · intro ⟨ha, hb⟩
        have h1 := char_isDigit_iff.mp ha
        have h2 := char_isDigit_iff.mp hb
        refine ⟨by omega, by omega, ?_, by omega⟩
        rintro c (rfl | rfl | h)
        · exact ha
        · exact hb
        · exact absurd h (by simp)
      · intro ⟨_, _, h, _⟩
        exact ⟨h a (by simp), h b (by simp)⟩
  | [a, b, c] =>
      simp only [ipOctet, digitsVal, List.foldl, Bool.and_eq_true, Bool.or_eq_true,
        decide_eq_true_eq, List.length_cons, List.length_nil, List.mem_cons,
        List.not_mem_nil]
      constructor
      · rintro ((⟨⟨⟨rfl, rfl⟩, hc0⟩, hc5⟩ | ⟨⟨⟨rfl, hb0⟩, hb4⟩, hc⟩) |
            ⟨⟨(rfl | rfl), hb⟩, hc⟩)
        · rw [char_le_iff] at hc0 hc5
          rw [e0] at hc0; rw [e5] at hc5
          have hcd : c.isDigit = true := char_isDigit_iff.mpr (by omega)
          refine ⟨by omega, by omega, ?_, by rw [e2, e5]; omega⟩
          rintro x (rfl | rfl | rfl | h)
          · decide
          · decide
          · exact hcd
          · exact absurd h (by simp)
        · rw [char_le_iff] at hb0 hb4
          rw [e0] at hb0; rw [e4] at hb4
          have hbd : b.isDigit = true := char_isDigit_iff.mpr (by omega)
          have hcn := char_isDigit_iff.mp hc
          refine ⟨by omega, by omega, ?_, by rw [e2]; omega⟩
          rintro x (rfl | rfl | rfl | h)
          · decide
          · exact hbd
          · exact hc
          · exact absurd h (by simp)
        · have hbn := char_isDigit_iff.mp hb
          have hcn := char_isDigit_iff.mp hc
          refine ⟨by omega, by omega, ?_, by rw [e0]; omega⟩
          rintro x (rfl | rfl | rfl | h)
          · decide
          · exact hb
          · exact hc
          · exact absurd h (by simp)
        · have hbn := char_isDigit_iff.mp hb
          have hcn := char_isDigit_iff.mp hc
          refine ⟨by omega, by omega, ?_, by rw [e1]; omega⟩
          rintro x (rfl | rfl | rfl | h)
          · decide
          · exact hb
          · exact hc
          · exact absurd h (by simp)
      · intro ⟨_, _, hdig, hval⟩
        have ha := char_isDigit_iff.mp (hdig a (by simp))
        have hb := char_isDigit_iff.mp (hdig b (by simp))
        have hc := char_isDigit_iff.mp (hdig c (by simp))
        by_cases h2 : a.toNat ≤ 49
        · refine Or.inr ⟨⟨?_, hdig b (by simp)⟩, hdig c (by simp)⟩
          by_cases h0 : a.toNat = 48
          · exact Or.inl (char_eq_of_toNat h0)
          · have h1' : a.toNat = 49 := by omega
            exact Or.inr (char_eq_of_toNat h1')
        · have harfl : a = '2' := char_eq_of_toNat (show a.toNat = 50 by omega)
          have ha50 : a.toNat = 50 := by omega
          by_cases hb4 : b.toNat ≤ 52
          · refine Or.inl (Or.inr ⟨⟨⟨harfl, ?_⟩, ?_⟩, hdig c (by simp)⟩)
            · rw [char_le_iff, e0]; omega
            · rw [char_le_iff, e4]; omega
          · have hb53 : b.toNat = 53 := by omega
            have hbrfl : b = '5' := char_eq_of_toNat hb53
            refine Or.inl (Or.inl ⟨⟨⟨harfl, hbrfl⟩, ?_⟩, ?_⟩)
            · rw [char_le_iff, e0]; omega
            · rw [char_le_iff, e5]; omega
  | a :: b :: c :: d :: rest =>
      simp only [ipOctet, List.length_cons]
      constructor
      · intro h
        exact absurd h (by simp)
      · intro ⟨_, h, _⟩
        omega

theorem ipOctet_eq_spec (f : List Char) : ipOctet f = specOctet f := by
  rw [Bool.eq_iff_iff, ipOctet_iff]
  unfold specOctet
  simp only [Bool.and_eq_true, decide_eq_true_eq, List.all_eq_true]
  tauto

theorem ipMatchCore_eq_spec (cs : List Char) :
    ipMatchCore cs = specDottedQuadData cs := by
  unfold ipMatchCore specDottedQuadData
  rw [show ipOctet = specOctet from funext ipOctet_eq_spec]

/-- The language of the source regex under `re.match`: a spec dotted quad,
or a spec dotted quad followed by one trailing newline. -/
theorem ipMatch_eq_spec (s : String) :
    ipMatch s = (specDottedQuad s ||
      (s.data.getLast? = some '\n' && specDottedQuadData s.data.dropLast)) := by
  unfold ipMatch specDottedQuad
  rw [ipMatchCore_eq_spec, ipMatchCore_eq_spec]

theorem lookupRec_map (devs : RoomMap) (name : String) :
    lookupRec (devs.map (fun q => (q.1, q.2.to_dict))) name
      = (lookupDev devs name).map Device.to_dict := by
  induction devs with
  | nil => simp [lookupRec, lookupDev]
  | cons p rest ih =>
      by_cases h : p.1 = name <;> simp [lookupRec, lookupDev, h, ih]

/-- The devices.json content written by `save_state` holds, for every live
device, exactly its `to_dict` record (whose `state` field is the device's
in-memory state at the time of the write). -/
theorem devices_json_state (reg : Registry) (room name : String) (dev : Device)
    (h : Registry.find reg room name = some dev) :
    findRecord (devices_json reg) room name = some dev.to_dict := by
  induction reg with
  | nil => simp [Registry.find] at h
  | cons p rest ih =>
      by_cases hp : p.1 = room
      · simp [Registry.find, hp] at h
        simp [devices_json, findRecord, hp, lookupRec_map, h]
      · simp [Registry.find, hp] at h
        simpa [devices_json, findRecord, hp] using ih h

/-! ## Claim theorems -/

/-- C9: a television's `state.volume` is 50 (hence within `[0, 100]`) in the
initial state, and stays within `[0, 100]` after any sequence of
`volume_up` / `volume_down` calls, whatever each remote-channel call
reports. -/
theorem tv_volume_invariant (name room ip : String) (port : Int)
    (ops : List (VolOp × Bool)) :
    volumeOf (TV.make name room ip port) = 50 ∧
    0 ≤ volumeOf (applyVolOps (TV.make name room ip port) ops) ∧
    volumeOf (applyVolOps (TV.make name room ip port) ops) ≤ 100 := by
  have h : volumeOf (TV.make name room ip port) = 50 := by
    simp +decide [volumeOf, TV.make, getKey]
  exact ⟨h, volume_bounds ops _ (by rw [h]; norm_num) (by rw [h]; norm_num)⟩

/-- C8: the text-transmission payload (`cleaned_text` of `TV.send_text`)
first maps each space to the `%s` placeholder and then strips everything
outside the word-character-plus-placeholder class, so every transmitted
character is a word character or a placeholder character, and no space
survives. -/
theorem send_text_sanitized (text : String) :
    ∀ c ∈ (send_text_clean text).data,
      (isWordChar c = true ∨ c = '%') ∧ c ≠ ' ' := by
  intro c hc
  simp only [send_text_clean, List.mem_filter] at hc
  have hp := hc.2
  simp only [Bool.or_eq_true, decide_eq_true_eq] at hp
  rcases hp with (h | h) | h
  · refine ⟨Or.inl h, ?_⟩
    rintro rfl
    simp [isWordChar, Char.isAlphanum, Char.isAlpha, Char.isUpper, Char.isLower,
      Char.isDigit] at h
  · subst h
    exact ⟨Or.inr rfl, by decide⟩
  · subst h
    exact ⟨Or.inl (by decide), by decide⟩

/-- C8 witness: the sanitizer applied to a concrete query keeps the
placeholder character. -/
theorem send_text_sanitized_witness :
    (isWordChar '%' = true ∨ '%' = '%') ∧ '%' ≠ ' ' :=
  send_text_sanitized "hi there!" '%' (by decide)

/-- C5: when the remote channel fails, `tv_volume_up` / `tv_volume_down`
report failure and leave the registry (hence `state.volume`) untouched;
when it succeeds, the stored volume becomes `min 100 (v + 5)` resp.
`max 0 (v - 5)`. -/
theorem tv_volume_atomic (reg : Registry) (env : Env) (room name : String)
    (dev : Device)
    (hfind : Registry.find reg (normalize_room_name room) name = some dev)
    (htv : dev.kind = DeviceKind.tv) :
    (env.channelOk = false →
        tv_volume_up reg env room name
          = ⟨reg, false, .ok "❌ Failed to increase TV volume. Connection issue."⟩
      ∧ tv_volume_down reg env room name
          = ⟨reg, false, .ok "❌ Failed to decrease TV volume. Connection issue."⟩)
  ∧ (env.channelOk = true →
        (Registry.find (tv_volume_up reg env room name).registry
            (normalize_room_name room) name).map volumeOf
          = some (min 100 (volumeOf dev + 5))
      ∧ (Registry.find (tv_volume_down reg env room name).registry
            (normalize_room_name room) name).map volumeOf
          = some (max 0 (volumeOf dev - 5))) := by
  constructor
  · intro hch
    constructor <;>
      simp [tv_volume_up, tv_volume_down, hfind, htv, hch, TV.volume_up,
        TV.volume_down, registry_set_self_eq reg (normalize_room_name room) name dev hfind]
  · intro hch
    constructor <;>
      simp [tv_volume_up, tv_volume_down, hfind, htv, hch, TV.volume_up,
        TV.volume_down, find_set_self, volumeOf_setVolume, volumeOf_mk]

/-- C5 witness: a concrete TV at volume 50 — channel failure leaves the
registry untouched with a failure message; channel success lands on 55. -/
theorem tv_volume_atomic_witness :
    (tv_volume_up regTV ⟨false, true, true, ""⟩ "livingroom" "tv"
      = ⟨regTV, false, .ok "❌ Failed to increase TV volume. Connection issue."⟩)
  ∧ ((Registry.find (tv_volume_up regTV ⟨true, true, true, ""⟩ "livingroom" "tv").registry
        (normalize_room_name "livingroom") "tv").map volumeOf
      = some (min 100 (volumeOf (TV.make "tv" "livingroom" "192.168.1.14" 5555) + 5))) :=
  ⟨((tv_volume_atomic regTV ⟨false, true, true, ""⟩ "livingroom" "tv"
      (TV.make "tv" "livingroom" "192.168.1.14" 5555) (by decide) rfl).1 rfl).1,
   ((tv_volume_atomic regTV ⟨true, true, true, ""⟩ "livingroom" "tv"
      (TV.make "tv" "livingroom" "192.168.1.14" 5555) (by decide) rfl).2 rfl).1⟩

/-- C7: `set_device_value` with key `brightness` and value 75 on a light
stores brightness 75; requesting the `speed` capability on a light is
rejected with the unsupported message and the registry — hence the light's
entire state — is untouched. -/
theorem light_set_value (reg : Registry) (env : Env) (room name : String)
    (dev : Device) (v : Value)
    (hfind : Registry.find reg (normalize_room_name room) name = some dev)
    (hl : dev.kind = DeviceKind.light) :
    (Registry.find (set_device_value reg env room name "brightness" (Value.int 75)).registry
        (normalize_room_name room) name).map (fun d => getKey d.state "brightness")
      = some (some (Value.int 75))
  ∧ set_device_value reg env room name "speed" v
      = ⟨reg, false, .ok ("Device " ++ name ++ " does not support " ++ "speed" ++ ".")⟩ := by
  constructor
  · simp [set_device_value, hfind, hl, supportsSet, find_set_self, getKey_setKey_self]
  · simp [set_device_value, hfind, hl, supportsSet]

/-- C7 witness: the seeded kitchen light1. -/
theorem light_set_value_witness :
    (Registry.find (set_device_value DEVICES ⟨true, true, true, ""⟩ "kitchen" "light1"
        "brightness" (Value.int 75)).registry
        (normalize_room_name "kitchen") "light1").map (fun d => getKey d.state "brightness")
      = some (some (Value.int 75))
  ∧ set_device_value DEVICES ⟨true, true, true, ""⟩ "kitchen" "light1" "speed" (Value.int 3)
      = ⟨DEVICES, false, .ok ("Device " ++ "light1" ++ " does not support " ++ "speed" ++ ".")⟩ :=
  light_set_value DEVICES ⟨true, true, true, ""⟩ "kitchen" "light1"
    (Light.make "light1" "kitchen") (Value.int 3) (by decide) rfl

/-- C6 counterexample: Python `re`'s `$` also matches before one trailing
newline, so the validation accepts the non-dotted-quad input
`"192.168.1.14\n"`: the device is inserted with the raw string as its
endpoint and the snapshot write is invoked — the claimed universal
rejection of every non-dotted-quad IP fails. -/
theorem add_tv_newlineIP_counterexample :
    specDottedQuad "192.168.1.14\n" = false
  ∧ ipMatch "192.168.1.14\n" = true
  ∧ (add_tv_device DEVICES ⟨true, true, true, ""⟩ "livingroom" "tv9"
      "192.168.1.14\n" 5555).saved = true
  ∧ Registry.find
      (add_tv_device DEVICES ⟨true, true, true, ""⟩ "livingroom" "tv9"
        "192.168.1.14\n" 5555).registry
      "livingroom" "tv9"
      = some (TV.make "tv9" "livingroom" "192.168.1.14\n" 5555) := by
  decide

/-- C6 amended: `add_tv_device` rejects every IP the source regex rejects —
and the regex's language is exactly the spec's dotted quads with octets
0–255, optionally followed by one trailing newline (Python `re.match`'s `$`
also matches before a trailing newline) — and rejects a port outside
`[1, 65535]`, each with a descriptive error, leaving the registry untouched
and never invoking the snapshot write. -/
theorem add_tv_device_validation (reg : Registry) (env : Env)
    (room name ip : String) (port : Int) :
    (ipMatch ip = false →
        add_tv_device reg env room name ip port
          = ⟨reg, false, .ok ("❌ Invalid IP address format: " ++ ip)⟩)
  ∧ (ipMatch ip = true → ¬(1 ≤ port ∧ port ≤ 65535) →
        add_tv_device reg env room name ip port
          = ⟨reg, false, .ok ("❌ Invalid port number: " ++ toString port
                              ++ ". Must be between 1-65535")⟩)
  ∧ ipMatch ip = (specDottedQuad ip ||
      (ip.data.getLast? = some '\n' && specDottedQuadData ip.data.dropLast)) := by
  refine ⟨?_, ?_, ipMatch_eq_spec ip⟩
  · intro h
    simp [add_tv_device, h]
  · intro h hp
    simp [add_tv_device, h, hp]

/-- C6 witness: `999.1.1.1` is rejected as an IP, `70000` as a port; the
registry stays the seed and no snapshot is attempted. -/
theorem add_tv_device_validation_witness :
    (add_tv_device DEVICES ⟨true, true, true, ""⟩ "livingroom" "tv9" "999.1.1.1" 5555
      = ⟨DEVICES, false, .ok ("❌ Invalid IP address format: " ++ "999.1.1.1")⟩)
  ∧ (add_tv_device DEVICES ⟨true, true, true, ""⟩ "livingroom" "tv9" "192.168.1.14" 70000
      = ⟨DEVICES, false, .ok ("❌ Invalid port number: " ++ toString (70000 : Int)
                              ++ ". Must be between 1-65535")⟩) :=
  ⟨(add_tv_device_validation DEVICES ⟨true, true, true, ""⟩ "livingroom" "tv9"
      "999.1.1.1" 5555).1 (by decide),
   (add_tv_device_validation DEVICES ⟨true, true, true, ""⟩ "livingroom" "tv9"
      "192.168.1.14" 70000).2.1 (by decide) (by decide)⟩

/-- C1 counterexample: with the devices.json write failing, `turn_on_device`
on the seeded light3 applies the in-memory mutation (power becomes ON) but
the command raises instead of returning its success message — the snapshot
write failure is neither absorbed nor logged. -/
theorem turnOn_snapshotFailure_counterexample :
    (turn_on_device DEVICES ⟨true, false, true, ""⟩ "livingroom" "light3").result
      = CmdResult.exn
  ∧ (Registry.find (turn_on_device DEVICES ⟨true, false, true, ""⟩ "livingroom" "light3").registry
        "livingroom" "light3").map (fun d => getKey d.state "power")
      = some (some (Value.str "ON"))
  ∧ (turn_on_device DEVICES ⟨true, false, true, ""⟩ "livingroom" "light3").result
      ≠ CmdResult.ok ("light3" ++ " in " ++ "livingroom" ++ " is now ON.") := by
  decide

/-- C1 amended: only the tv_config part of the snapshot write is
best-effort.  With devices.json writable the command returns its success
message whatever the tv_config write does; a devices.json write failure
escapes the command as an exception, so the success message is not
returned — while the in-memory registry keeps the applied change in every
case. -/
theorem snapshot_bestEffort_amended (reg : Registry) (env : Env)
    (room name : String) (dev : Device)
    (hfind : Registry.find reg room name = some dev) :
    (env.devicesWriteOk = true →
        (turn_on_device reg env room name).result
          = .ok (name ++ " in " ++ room ++ " is now ON.")) ∧
    (env.devicesWriteOk = false →
        (turn_on_device reg env room name).result = .exn) ∧
    Registry.find (turn_on_device reg env room name).registry room name
      = some (Device.turn_on dev env.channelOk).1 := by
  refine ⟨fun h => ?_, fun h => ?_, ?_⟩ <;>
    simp [turn_on_device, hfind, save_state_ok, find_set_self, *]

/-- C1 amended witness: with only the tv_config write failing, the command
still reports success and the light is ON. -/
theorem snapshot_bestEffort_amended_witness :
    (turn_on_device DEVICES ⟨true, true, false, ""⟩ "livingroom" "light4").result
      = .ok ("light4" ++ " in " ++ "livingroom" ++ " is now ON.")
  ∧ Registry.find (turn_on_device DEVICES ⟨true, true, false, ""⟩ "livingroom" "light4").registry
      "livingroom" "light4"
      = some (Device.turn_on (Light.make "light4" "livingroom") true).1 :=
  ⟨(snapshot_bestEffort_amended DEVICES ⟨true, true, false, ""⟩ "livingroom" "light4"
      (Light.make "light4" "livingroom") (by decide)).1 rfl,
   (snapshot_bestEffort_amended DEVICES ⟨true, true, false, ""⟩ "livingroom" "light4"
      (Light.make "light4" "livingroom") (by decide)).2.2⟩

/-- C2 counterexample: light3 is registered under the canonical key
`livingroom`, and `"living room"` is an alias of that key, yet
`turn_on_device` invoked with the alias reports not-found and changes
nothing — it never normalizes its room argument. -/
theorem alias_turnOn_counterexample :
    turn_on_device DEVICES ⟨true, true, true, ""⟩ "living room" "light3"
      = ⟨DEVICES, false,
          .ok ("Device " ++ "light3" ++ " not found in " ++ "living room" ++ ".")⟩
  ∧ normalize_room_name "living room" = "livingroom"
  ∧ (Registry.find DEVICES "livingroom" "light3").isSome = true := by
  decide

/-- C2 amended: the commands other than `turn_on_device` / `turn_off_device`
resolve the device through `normalize_room_name`, so their registry effect
is invariant under room aliases; `turn_on_device` looks up the raw room
string and reports not-found whenever that raw string is not itself a
registry key. -/
theorem normalization_amended (reg : Registry) (env : Env)
    (r1 r2 name key : String) (v : Value)
    (h : normalize_room_name r1 = normalize_room_name r2) :
    ((set_device_value reg env r1 name key v).registry
        = (set_device_value reg env r2 name key v).registry
      ∧ (set_device_value reg env r1 name key v).saved
        = (set_device_value reg env r2 name key v).saved)
  ∧ (tv_volume_up reg env r1 name).registry = (tv_volume_up reg env r2 name).registry
  ∧ (∀ room nm, Registry.hasRoom reg room = false →
        turn_on_device reg env room nm
          = ⟨reg, false, .ok ("Device " ++ nm ++ " not found in " ++ room ++ ".")⟩) := by
  refine ⟨?_, ?_, ?_⟩
  · simp only [set_device_value, h]
    cases hf : Registry.find reg (normalize_room_name r2) name with
    | none => simp
    | some dev => by_cases hs : supportsSet dev.kind key <;> simp [hs]
  · simp only [tv_volume_up, h]
    cases hf : Registry.find reg (normalize_room_name r2) name with
    | none => simp
    | some dev =>
        by_cases ht : dev.kind = DeviceKind.tv
        · cases hok : env.channelOk <;> simp [ht, TV.volume_up, hok]
        · simp [ht]
  · intro room nm hr
    simp [turn_on_device, find_none_of_not_hasRoom reg room nm hr]

/-- C2 amended witness: `"living room"` and `"lounge"` act alike for
`set_device_value`, and `turn_on_device` with the unknown raw key
`"living room"` reports not-found. -/
theorem normalization_amended_witness :
    ((set_device_value DEVICES ⟨true, true, true, ""⟩ "living room" "light3"
          "brightness" (Value.int 20)).registry
        = (set_device_value DEVICES ⟨true, true, true, ""⟩ "lounge" "light3"
          "brightness" (Value.int 20)).registry
      ∧ (set_device_value DEVICES ⟨true, true, true, ""⟩ "living room" "light3"
          "brightness" (Value.int 20)).saved
        = (set_device_value DEVICES ⟨true, true, true, ""⟩ "lounge" "light3"
          "brightness" (Value.int 20)).saved)
  ∧ (tv_volume_up DEVICES ⟨true, true, true, ""⟩ "living room" "light3").registry
      = (tv_volume_up DEVICES ⟨true, true, true, ""⟩ "lounge" "light3").registry
  ∧ (∀ room nm, Registry.hasRoom DEVICES room = false →
        turn_on_device DEVICES ⟨true, true, true, ""⟩ room nm
          = ⟨DEVICES, false, .ok ("Device " ++ nm ++ " not found in " ++ room ++ ".")⟩) :=
  normalization_amended DEVICES ⟨true, true, true, ""⟩ "living room" "lounge"
    "light3" "brightness" (Value.int 20) (by decide)

/-- C3 counterexample: on a television whose remote power signal fails,
`turn_on_device` still returns its success message, even though `TV.turn_on`
reported failure and the recorded power stayed "off". -/
theorem tv_turnOn_ignoresFailure_counterexample :
    (turn_on_device regTV ⟨false, true, true, ""⟩ "livingroom" "tv").result
      = .ok ("tv" ++ " in " ++ "livingroom" ++ " is now ON.")
  ∧ (TV.turn_on (TV.make "tv" "livingroom" "192.168.1.14" 5555) false).2 = false
  ∧ (Registry.find (turn_on_device regTV ⟨false, true, true, ""⟩ "livingroom" "tv").registry
        "livingroom" "tv").map (fun d => getKey d.state "power")
      = some (some (Value.str "off")) := by
  decide

/-- C3 amended: the TV-specific tools do propagate the mutator's outcome,
but `turn_on_device` / `turn_off_device` discard it: on a television whose
power signal fails they still report the success message (devices.json
being writable) and the device state is left untouched. -/
theorem turnOn_ignores_tv_mutator (reg : Registry) (env : Env)
    (room name : String) (dev : Device)
    (hfind : Registry.find reg room name = some dev)
    (htv : dev.kind = DeviceKind.tv)
    (hch : env.channelOk = false) (hw : env.devicesWriteOk = true) :
    turn_on_device reg env room name
      = ⟨reg, true, .ok (name ++ " in " ++ room ++ " is now ON.")⟩
  ∧ turn_off_device reg env room name
      = ⟨reg, true, .ok (name ++ " in " ++ room ++ " is now OFF.")⟩ := by
  constructor <;>
    simp [turn_on_device, turn_off_device, Device.turn_on, Device.turn_off, htv,
      TV.turn_on, TV.turn_off, hfind, hch, hw, save_state_ok,
      registry_set_self_eq reg room name dev hfind]

/-- C3 amended witness: the concrete one-TV registry with a failing
channel. -/
theorem turnOn_ignores_tv_mutator_witness :
    turn_on_device regTV ⟨false, true, true, ""⟩ "livingroom" "tv"
      = ⟨regTV, true, .ok ("tv" ++ " in " ++ "livingroom" ++ " is now ON.")⟩
  ∧ turn_off_device regTV ⟨false, true, true, ""⟩ "livingroom" "tv"
      = ⟨regTV, true, .ok ("tv" ++ " in " ++ "livingroom" ++ " is now OFF.")⟩ :=
  turnOn_ignores_tv_mutator regTV ⟨false, true, true, ""⟩ "livingroom" "tv"
    (TV.make "tv" "livingroom" "192.168.1.14" 5555) (by decide) rfl rfl rfl

/-- C4 counterexample: a successful `tv_volume_up` leaves the in-memory TV
at volume 55 and triggers the snapshot; reloading the persisted data at
startup reconstructs the TV with the default volume 50 — the persisted state
fields are not restored. -/
theorem reload_losesState_counterexample :
    (tv_volume_up regTV ⟨true, true, true, ""⟩ "livingroom" "tv").saved = true
  ∧ ((Registry.find (tv_volume_up regTV ⟨true, true, true, ""⟩ "livingroom" "tv").registry
        "livingroom" "tv").map volumeOf = some 55)
  ∧ ((Registry.find
        (startup_tv_configs DEVICES
          (save_tv_config (tv_volume_up regTV ⟨true, true, true, ""⟩ "livingroom" "tv").registry))
        "livingroom" "tv").map volumeOf = some 50) := by
  decide

/-- C4 amended: the devices.json snapshot does record every live device's
state verbatim at write time, but that file is never reloaded: the startup
reload consumes only the TV endpoint config, reconstructing a missing
television with its saved ip/port and the constructor's default state—
whatever volume the registry held when the snapshot was written. -/
theorem snapshot_roundTrip_amended (reg : Registry) (room name : String)
    (dev : Device) (ip : String) (port vol : Int)
    (hfind : Registry.find reg room name = some dev) :
    (findRecord (devices_json reg) room name).map (fun r => r.state) = some dev.state
  ∧ Registry.find (startup_tv_configs DEVICES (save_tv_config (regTVvol ip port vol)))
      "livingroom" "tv" = some (TV.make "tv" "livingroom" ip port)
  ∧ (Registry.find (regTVvol ip port vol) "livingroom" "tv").map volumeOf = some vol := by
  refine ⟨?_, ?_, ?_⟩
  · simp [devices_json_state reg room name dev hfind, Device.to_dict]
  · rfl
  · simp [regTVvol, Registry.find, lookupDev, volumeOf_setVolume]

/-- C4 amended witness: the seeded registry's light1 record carries its
state, and a written volume of 70 is dropped by the reload. -/
theorem snapshot_roundTrip_amended_witness :
    (findRecord (devices_json DEVICES) "kitchen" "light1").map (fun r => r.state)
      = some (Light.make "light1" "kitchen").state
  ∧ Registry.find (startup_tv_configs DEVICES (save_tv_config (regTVvol "192.168.1.14" 5555 70)))
      "livingroom" "tv" = some (TV.make "tv" "livingroom" "192.168.1.14" 5555)
  ∧ (Registry.find (regTVvol "192.168.1.14" 5555 70) "livingroom" "tv").map volumeOf
      = some 70 :=
  snapshot_roundTrip_amended DEVICES "kitchen" "light1" (Light.make "light1" "kitchen")
    "192.168.1.14" 5555 70 (by decide)

/-- C10 counterexample: when the device already exists but the supplied IP
is invalid, `add_tv_device` reports the invalid-IP error, not the
already-exists error (validation runs first). -/
theorem add_existing_invalidIP_counterexample :
    add_tv_device regTV ⟨true, true, true, ""⟩ "livingroom" "tv" "999.1.1.1" 5555
      = ⟨regTV, false, .ok ("❌ Invalid IP address format: " ++ "999.1.1.1")⟩
  ∧ (Registry.find regTV "livingroom" "tv").isSome = true
  ∧ (add_tv_device regTV ⟨true, true, true, ""⟩ "livingroom" "tv" "999.1.1.1" 5555).result
      ≠ .ok ("❌ Device " ++ "tv" ++ " already exists in " ++ "livingroom"
             ++ ". Use update_tv_config to modify it.") := by
  decide

/-- C10 amended: whenever the target device already exists in the
normalized room, `add_tv_device` leaves the registry untouched (the
existing device object included) and never invokes the snapshot write; and
provided the ip and port pass validation, it reports the already-exists
error. -/
theorem add_existing_frame_amended (reg : Registry) (env : Env)
    (room name ip : String) (port : Int) (dev : Device)
    (hfind : Registry.find reg (normalize_room_name room) name = some dev) :
    (add_tv_device reg env room name ip port).registry = reg
  ∧ (add_tv_device reg env room name ip port).saved = false
  ∧ (ipMatch ip = true → 1 ≤ port → port ≤ 65535 →
      (add_tv_device reg env room name ip port).result
        = .ok ("❌ Device " ++ name ++ " already exists in " ++ room
               ++ ". Use update_tv_config to modify it.")) := by
  have hroom : Registry.hasRoom reg (normalize_room_name room) = true :=
    hasRoom_of_find reg (normalize_room_name room) name dev hfind
  have hens : Registry.ensureRoom reg (normalize_room_name room) = reg :=
    ensureRoom_of_hasRoom reg (normalize_room_name room) hroom
  by_cases hip : ipMatch ip = false
  · simp [add_tv_device, hip]
  · rw [Bool.not_eq_false] at hip
    by_cases hport : 1 ≤ port ∧ port ≤ 65535
    · simp [add_tv_device, hip, hport, hens, hfind]
    · simp [add_tv_device, hip, hport]
      intro h1 h2
      exact absurd ⟨h1, h2⟩ hport

/-- C10 amended witness: adding the already-present TV with a valid
endpoint changes nothing and reports already-exists. -/
theorem add_existing_frame_amended_witness :
    (add_tv_device regTV ⟨true, true, true, ""⟩ "livingroom" "tv" "192.168.1.20" 5555).registry
      = regTV
  ∧ (add_tv_device regTV ⟨true, true, true, ""⟩ "livingroom" "tv" "192.168.1.20" 5555).saved
      = false
  ∧ (ipMatch "192.168.1.20" = true → 1 ≤ (5555 : Int) → (5555 : Int) ≤ 65535 →
      (add_tv_device regTV ⟨true, true, true, ""⟩ "livingroom" "tv" "192.168.1.20" 5555).result
        = .ok ("❌ Device " ++ "tv" ++ " already exists in " ++ "livingroom"
               ++ ". Use update_tv_config to modify it.")) :=
  add_existing_frame_amended regTV ⟨true, true, true, ""⟩ "livingroom" "tv"
    "192.168.1.20" 5555 (TV.make "tv" "livingroom" "192.168.1.14" 5555) (by decide)

end SmartHome
